import Mathlib

/-!
Shallow embedding of the protobench repository (Rust) in Lean 4.

The embedding covers:
- the shared in-memory metric store (src/shared/src/lib.rs):
  MetricPoint, MetricQuery, MetricStatistics, InMemoryStorage with
  store_metric / query_metrics / calculate_statistics;
- the benchmark instrumentation (src/benchmarks/src/lib.rs):
  PayloadSizes, BenchmarkMetrics, estimate_cpu_cycles, benchmark_operation,
  generate_test_data;
- the cost scoring of the comprehensive metrics demo
  (src/benchmarks/examples/comprehensive_metrics_demo.rs):
  calculate_cost_score and the best-overall selection of analyze_efficiency.

Modelling conventions:
- Rust u64 / usize values are Nat; arithmetic the compiled (release-mode)
  code performs with wraparound is taken modulo 2^64 explicitly.
- Rust i64 values are Int.
- f32 / f64 values are abstracted: structures carrying floats are
  parameterised by a type F, and the floating operations the code performs
  (0.0, +, /, numeric casts) are passed as a FloatOps F record, so every
  theorem holds for any interpretation of the float operations.  Where a
  concrete instance is needed (witnesses, counterexamples) we use exact
  rational arithmetic via ratOps.
- The RwLock of InMemoryStorage is modelled by a `poisoned` flag on the
  store state: acquiring the lock fails exactly when the flag is set
  (the only failure the Rust code maps to an error).  Each operation is a
  function from the store state to (result, new store state).
- HashMap tags are modelled as association lists in insertion order.
-/

namespace Protobench

/-- Modulus of 64-bit unsigned machine arithmetic (u64 / usize on the
64-bit targets this repository builds for). -/
def u64Mod : Nat := 2 ^ 64

/-- Wrapping 64-bit unsigned addition, the release-mode semantics of
Rust `+` on u64 / usize. -/
def wadd64 (a b : Nat) : Nat := (a + b) % u64Mod

/-- Wrapping 64-bit unsigned multiplication, the release-mode semantics of
Rust `*` on u64. -/
def wmul64 (a b : Nat) : Nat := (a * b) % u64Mod

/-- Wrapping 64-bit signed subtraction, the release-mode semantics of
Rust `-` on i64: the mathematical difference reduced into the i64 range
[-2^63, 2^63). -/
def wsub64 (a b : Int) : Int := (a - b + 2 ^ 63) % 2 ^ 64 - 2 ^ 63

/-- Rust `Iterator::sum::<u64>`: a left fold of wrapping u64 addition
starting from 0. -/
def sum_u64 (l : List Nat) : Nat := l.foldl wadd64 0

/-- The floating-point operations the embedded code uses, kept abstract:
`zero` is the literal 0.0, `add` and `div` the arithmetic operators, and
`ofNat` the numeric casts (`as f32`, `as f64`) from unsigned integers. -/
structure FloatOps (F : Type) where
  zero : F
  add : F → F → F
  div : F → F → F
  ofNat : Nat → F

/-- Rust `Iterator::sum` over floats: a left fold of `add` from `zero`. -/
def fsum {F : Type} (ops : FloatOps F) (l : List F) : F :=
  l.foldl ops.add ops.zero

/-- Exact-rational interpretation of the float operations, used to
evaluate the model on concrete inputs. -/
def ratOps : FloatOps ℚ where
  zero := 0
  add := fun a b => a + b
  div := fun a b => a / b
  ofNat := fun n => (n : ℚ)

/-- MetricPoint from src/shared/src/lib.rs: timestamp i64, hostname,
cpu_percent f32 (abstracted to F), memory_bytes u64, disk_io_ops u32,
tags string map (association list in insertion order). -/
structure MetricPoint (F : Type) where
  timestamp : Int
  hostname : String
  cpu_percent : F
  memory_bytes : Nat
  disk_io_ops : Nat
  tags : List (String × String)
deriving DecidableEq

/-- MetricQuery from src/shared/src/lib.rs. -/
structure MetricQuery where
  start_time : Int
  end_time : Int
  hostname_filter : Option String
deriving DecidableEq

/-- MetricStatistics from src/shared/src/lib.rs: count u64,
avg_cpu_percent f32 (abstracted), avg_memory_bytes u64,
avg_disk_io_ops f32 (abstracted), time_range_seconds i64. -/
structure MetricStatistics (F : Type) where
  count : Nat
  avg_cpu_percent : F
  avg_memory_bytes : Nat
  avg_disk_io_ops : F
  time_range_seconds : Int
deriving DecidableEq

/-- State of InMemoryStorage: the Vec behind the RwLock, plus whether the
lock is poisoned (the only condition under which any operation errors). -/
structure Store (F : Type) where
  poisoned : Bool
  metrics : List (MetricPoint F)
deriving DecidableEq

/-- The combined predicate of the two `.filter(..)` closures in
`InMemoryStorage::query_metrics`: timestamp within the inclusive range,
and hostname equal to the filter when one is present (`map_or(true, ..)`). -/
def metricMatches {F : Type} (q : MetricQuery) (m : MetricPoint F) : Bool :=
  (decide (q.start_time ≤ m.timestamp) && decide (m.timestamp ≤ q.end_time))
    && (match q.hostname_filter with
        | some f => m.hostname == f
        | none => true)

/-- InMemoryStorage::store_metric: acquire the write lock (fails iff
poisoned, leaving the state unchanged), then push the metric. -/
def store_metric {F : Type} (s : Store F) (m : MetricPoint F) :
    Except String Unit × Store F :=
  if s.poisoned then
    (Except.error "Lock poisoned", s)
  else
    (Except.ok (), { poisoned := s.poisoned, metrics := s.metrics ++ [m] })

/-- InMemoryStorage::query_metrics: acquire the read lock (fails iff
poisoned), then filter the stored sequence by the two closures, cloning
matches in order; the state is never modified. -/
def query_metrics {F : Type} (s : Store F) (q : MetricQuery) :
    Except String (List (MetricPoint F)) × Store F :=
  if s.poisoned then
    (Except.error "Lock poisoned", s)
  else
    (Except.ok (s.metrics.filter (metricMatches q)), s)

/-- InMemoryStorage::calculate_statistics: run query_metrics; on the empty
result return the zeroed statistics, otherwise count and average (u64 sums
wrap, the memory average uses truncating integer division, the float
averages divide the float sums by the count cast to float).  In both
branches time_range_seconds is the i64 subtraction
end_time - start_time, which wraps into the i64 range. -/
def calculate_statistics {F : Type} (ops : FloatOps F) (s : Store F)
    (q : MetricQuery) : Except String (MetricStatistics F) × Store F :=
  match query_metrics s q with
  | (Except.error e, s1) => (Except.error e, s1)
  | (Except.ok ms, s1) =>
    if ms.isEmpty then
      (Except.ok
        { count := 0
          avg_cpu_percent := ops.zero
          avg_memory_bytes := 0
          avg_disk_io_ops := ops.zero
          time_range_seconds := wsub64 q.end_time q.start_time }, s1)
    else
      let count := ms.length
      (Except.ok
        { count := count
          avg_cpu_percent :=
            ops.div (fsum ops (ms.map (fun m => m.cpu_percent)))
              (ops.ofNat count)
          avg_memory_bytes := sum_u64 (ms.map (fun m => m.memory_bytes)) / count
          avg_disk_io_ops :=
            ops.div (fsum ops (ms.map (fun m => ops.ofNat m.disk_io_ops)))
              (ops.ofNat count)
          time_range_seconds := wsub64 q.end_time q.start_time }, s1)

/-- The estimate_cpu_cycles function of src/benchmarks/src/lib.rs.
A Duration is represented by its exact nanosecond count (Rust
`Duration::as_nanos` returns u128, which never truncates); the Rust
`as u64` cast reduces it modulo 2^64, and the multiplication by the
nominal 3 GHz rate is wrapping u64 multiplication. -/
def estimate_cpu_cycles (duration_nanos : Nat) : Nat :=
  wmul64 (duration_nanos % u64Mod) 3000000000 / 1000000000

/-- PayloadSizes from src/benchmarks/src/lib.rs (usize fields). -/
structure PayloadSizes where
  request_bytes : Nat
  response_bytes : Nat
  total_bytes : Nat
deriving DecidableEq

/-- PayloadSizes::new: total_bytes is the (wrapping usize) sum of request
and response byte counts. -/
def PayloadSizes.new (request_bytes response_bytes : Nat) : PayloadSizes :=
  { request_bytes := request_bytes
    response_bytes := response_bytes
    total_bytes := wadd64 request_bytes response_bytes }

/-- BenchmarkMetrics from src/benchmarks/src/lib.rs; the latency Duration
is represented by its nanosecond count. -/
structure BenchmarkMetrics where
  latency_nanos : Nat
  payload_size : PayloadSizes
  memory_allocated : Nat
  cpu_cycles : Nat
deriving DecidableEq

/-- The benchmark_operation wrapper of src/benchmarks/src/lib.rs, with its
effectful measurements abstracted as inputs: `latency_nanos` is the
elapsed wall-clock time of the wrapped call, `memory_allocated` the
allocation-counter delta, and `response_payload_size` what
`result.measure_payload_size()` returns.  The function assembles the
BenchmarkMetrics bundle exactly as the source does: cpu_cycles from
estimate_cpu_cycles of the latency, payload sizes via PayloadSizes::new. -/
def benchmark_operation (request_payload_size latency_nanos memory_allocated
    response_payload_size : Nat) : BenchmarkMetrics :=
  { latency_nanos := latency_nanos
    payload_size := PayloadSizes.new request_payload_size response_payload_size
    memory_allocated := memory_allocated
    cpu_cycles := estimate_cpu_cycles latency_nanos }

/-- The calculate_cost_score function of
src/benchmarks/examples/comprehensive_metrics_demo.rs, with the f64
arithmetic interpreted exactly over ℚ: latency in milliseconds times 0.4,
memory in KiB times 0.2, total traffic in KiB times 0.2, and cycles in
millions times 0.2. -/
def calculate_cost_score (m : BenchmarkMetrics) : ℚ :=
  (m.latency_nanos : ℚ) / 1000000 * (4 / 10)
    + (m.memory_allocated : ℚ) / 1024 * (2 / 10)
    + (m.payload_size.total_bytes : ℚ) / 1024 * (2 / 10)
    + (m.cpu_cycles : ℚ) / 1000000 * (2 / 10)

/-- Rust `Iterator::min_by` with a total key: folds over the list keeping
the current minimum, preferring the earlier element on ties (min_by
returns the first of several equally minimum elements). -/
def iter_min_by {α : Type} (key : α → ℚ) : List α → Option α
  | [] => none
  | x :: xs => some (xs.foldl (fun best y => if key y < key best then y else best) x)

/-- The best-overall selection of analyze_efficiency in
src/benchmarks/examples/comprehensive_metrics_demo.rs:
`results.iter().min_by(..)` comparing calculate_cost_score values. -/
def best_overall (results : List (String × BenchmarkMetrics)) :
    Option (String × BenchmarkMetrics) :=
  iter_min_by (fun p => calculate_cost_score p.2) results

/-- The hostname pool of generate_test_data. -/
def hostnames : List String :=
  ["web-01", "web-02", "db-primary", "db-replica", "cache-01",
   "api-gateway", "worker-01", "worker-02", "monitoring", "load-balancer"]

/-- The environment pool of generate_test_data. -/
def environments : List String := ["prod", "staging", "dev"]

/-- The region pool of generate_test_data. -/
def regions : List String := ["us-east", "us-west", "eu-central", "ap-southeast"]

/-- The service pool of generate_test_data. -/
def services : List String := ["frontend", "backend", "database", "cache", "queue"]

/-- Rust `slice::choose(&mut rng)`: pick an element by a draw from the
random stream (the draw reduced modulo the slice length). -/
def choose (l : List String) (d : Nat) : String := l.getD (d % l.length) ""

/-- Rust `rng.gen_range(lo..hi)`: a value in [lo, hi) determined by a draw
from the random stream. -/
def gen_range (lo hi : Nat) (d : Nat) : Nat := lo + d % (hi - lo)

/-- The `format!("v{}.{}.{}", ..)` version tag of generate_test_data. -/
def version_string (a b c : Nat) : String :=
  "v" ++ toString a ++ "." ++ toString b ++ "." ++ toString c

/-- One iteration of the generate_test_data loop
(src/benchmarks/src/lib.rs).  The StdRng seeded with the constant 42 is an
external deterministic generator; it is abstracted as two fixed streams:
`draws j` is the j-th integer draw of the seed-42 stream and `fdraws i`
the f32 draw of iteration i (floats are abstract, see FloatOps).  Each
iteration consumes its integer draws at consecutive stream positions in
source order: env, region, service, the three version components, the
timestamp offset gen_range(0..3600), the hostname choice, memory_bytes,
disk_io_ops.  `base_timestamp` is the wall-clock Unix time
(`SystemTime::now()`) read once per generate_test_data call. -/
def generate_metric {F : Type} (draws : Nat → Nat) (fdraws : Nat → F)
    (base_timestamp : Int) (i : Nat) : MetricPoint F :=
  let d := fun j => draws (10 * i + j)
  { timestamp := base_timestamp - Int.ofNat (gen_range 0 3600 (d 6)) + Int.ofNat i
    hostname := choose hostnames (d 7)
    cpu_percent := fdraws i
    memory_bytes := gen_range 1000000000 16000000000 (d 8)
    disk_io_ops := gen_range 100 10000 (d 9)
    tags :=
      [("env", choose environments (d 0)),
       ("region", choose regions (d 1)),
       ("service", choose services (d 2)),
       ("version",
        version_string (gen_range 1 3 (d 3)) (gen_range 0 10 (d 4))
          (gen_range 0 5 (d 5)))] }

/-- generate_test_data of src/benchmarks/src/lib.rs: the loop pushing one
generated metric per index 0..count. -/
def generate_test_data {F : Type} (draws : Nat → Nat) (fdraws : Nat → F)
    (base_timestamp : Int) (count : Nat) : List (MetricPoint F) :=
  (List.range count).map (generate_metric draws fdraws base_timestamp)

/-- A concrete instantiation of the abstract integer draw stream, used to
evaluate the generator on explicit inputs. -/
def zeroDraws : Nat → Nat := fun _ => 0

/-- A concrete instantiation of the abstract float draw stream over ℚ. -/
def zeroFdraws : Nat → ℚ := fun _ => 0

/-- The spec's average-memory formula for a result list, written from the
spec's words for comparison with the code: the sum of the memory_bytes
values (mathematical, non-wrapping sum) integer-divided, truncating, by
the count. -/
def spec_avg_memory_bytes {F : Type} (l : List (MetricPoint F)) : Nat :=
  (l.map (fun m => m.memory_bytes)).sum / l.length

/-- A store whose two metrics both carry memory_bytes = 2^63, so that the
u64 sum of the memory values wraps. -/
def c3CexStore : Store ℚ :=
  { poisoned := false
    metrics := [⟨1, "web-01", 0, 2 ^ 63, 0, []⟩, ⟨2, "web-01", 0, 2 ^ 63, 0, []⟩] }

/-- A query matching both metrics of c3CexStore. -/
def c3CexQuery : MetricQuery := { start_time := 0, end_time := 10, hostname_filter := none }

/-- An empty store with an unpoisoned lock. -/
def c2CexStore : Store ℚ := { poisoned := false, metrics := [] }

/-- The widest representable query: start_time at the least i64 value and
end_time at the greatest, so the i64 subtraction end_time - start_time
overflows. -/
def c2CexQuery : MetricQuery :=
  { start_time := -(2 ^ 63), end_time := 2 ^ 63 - 1, hostname_filter := none }

/-- The spec's cycle formula, written from the spec's words for
comparison with the code: elapsed nanoseconds as a 64-bit unsigned value,
multiplied by the nominal 3,000,000,000 Hz rate in unsigned 64-bit
(wrapping) arithmetic, divided by 1,000,000,000. -/
def spec_cycle_estimate (duration_nanos : Nat) : Nat :=
  (duration_nanos % 2 ^ 64) * 3000000000 % 2 ^ 64 / 1000000000

/-- The spec's composite cost formula, written from the spec's words for
comparison with the code: 0.4 times latency in milliseconds plus 0.2
times memory in kilobytes plus 0.2 times total payload in kilobytes plus
0.2 times cycles divided by one million. -/
def spec_cost_score (m : BenchmarkMetrics) : ℚ :=
  4 / 10 * ((m.latency_nanos : ℚ) / 1000000)
    + 2 / 10 * ((m.memory_allocated : ℚ) / 1024)
    + 2 / 10 * ((m.payload_size.total_bytes : ℚ) / 1024)
    + 2 / 10 * ((m.cpu_cycles : ℚ) / 1000000)

/-- A concrete measurement bundle (1 ms call moving 20 bytes). -/
def demoMetricsA : BenchmarkMetrics := benchmark_operation 10 1000000 1024 10

/-- A concrete measurement bundle (2 ms call moving 16 bytes). -/
def demoMetricsB : BenchmarkMetrics := benchmark_operation 8 2000000 2048 8

/-- A concrete two-adapter comparison table. -/
def demoResults : List (String × BenchmarkMetrics) :=
  [("rest", demoMetricsA), ("grpc", demoMetricsB)]

/-! Helper lemmas shared by the claim theorems. -/

/-- The Bool filter predicate of query_metrics, unfolded to a proposition:
timestamp in the inclusive range and hostname matching the optional
filter. -/
lemma metricMatches_iff {F : Type} (q : MetricQuery) (m : MetricPoint F) :
    metricMatches q m = true ↔
      q.start_time ≤ m.timestamp ∧ m.timestamp ≤ q.end_time ∧
        ∀ f, q.hostname_filter = some f → m.hostname = f := by
  cases hq : q.hostname_filter with
  | none => simp [metricMatches, hq, and_assoc]
  | some f => simp [metricMatches, hq, and_assoc]

/-- Folding wrapping u64 addition agrees with the mathematical sum
modulo 2^64, for any accumulator. -/
lemma foldl_wadd64_mod (l : List Nat) (a : Nat) :
    l.foldl wadd64 a % u64Mod = (a + l.sum) % u64Mod := by
  induction l generalizing a with
  | nil => simp
  | cons x xs ih =>
    calc (x :: xs).foldl wadd64 a % u64Mod
        = xs.foldl wadd64 ((a + x) % u64Mod) % u64Mod := rfl
      _ = ((a + x) % u64Mod + xs.sum) % u64Mod := ih ((a + x) % u64Mod)
      _ = (a + (x :: xs).sum) % u64Mod := by
          rw [Nat.mod_add_mod, List.sum_cons, Nat.add_assoc]

/-- A fold of wrapping u64 addition stays below 2^64 whenever the
accumulator starts below 2^64. -/
lemma foldl_wadd64_lt (l : List Nat) (a : Nat) (ha : a < u64Mod) :
    l.foldl wadd64 a < u64Mod := by
  induction l generalizing a with
  | nil => exact ha
  | cons x xs ih =>
    exact ih ((a + x) % u64Mod) (Nat.mod_lt _ (by norm_num [u64Mod]))

/-- The wrapping u64 sum is the mathematical sum reduced modulo 2^64. -/
lemma sum_u64_eq (l : List Nat) : sum_u64 l = l.sum % u64Mod := by
  have h1 : sum_u64 l % u64Mod = (0 + l.sum) % u64Mod := foldl_wadd64_mod l 0
  have h2 : sum_u64 l < u64Mod := foldl_wadd64_lt l 0 (by norm_num [u64Mod])
  rw [Nat.mod_eq_of_lt h2] at h1
  simpa using h1

/-- Rust Iterator::min_by keeps an element that is minimal for the key:
the fold result is the start or a list element, and its key is below the
start's key and every list element's key. -/
lemma foldl_min_by_le {α : Type} (key : α → ℚ) (xs : List α) (a : α) :
    (xs.foldl (fun best y => if key y < key best then y else best) a = a ∨
      xs.foldl (fun best y => if key y < key best then y else best) a ∈ xs) ∧
    key (xs.foldl (fun best y => if key y < key best then y else best) a) ≤ key a ∧
    ∀ x ∈ xs, key (xs.foldl (fun best y => if key y < key best then y else best) a) ≤ key x := by
  induction xs generalizing a with
  | nil => exact ⟨Or.inl rfl, le_refl _, by simp⟩
  | cons y ys ih =>
    have step : (y :: ys).foldl (fun best z => if key z < key best then z else best) a
        = ys.foldl (fun best z => if key z < key best then z else best)
            (if key y < key a then y else a) := rfl
    obtain ⟨hmem, hle, hall⟩ := ih (if key y < key a then y else a)
    have hstep_le_a : key (if key y < key a then y else a) ≤ key a := by
      by_cases h : key y < key a
      · simp [h, le_of_lt h]
      · simp [h]
    have hstep_le_y : key (if key y < key a then y else a) ≤ key y := by
      by_cases h : key y < key a
      · simp [h]
      · simp [h, le_of_not_lt h]
    refine ⟨?_, ?_, ?_⟩
    · rcases hmem with h | h
      · rw [step, h]
        by_cases hc : key y < key a
        · exact Or.inr (by simp [hc])
        · exact Or.inl (by simp [hc])
      · exact Or.inr (by rw [step]; exact List.mem_cons_of_mem _ h)
    · rw [step]; exact le_trans hle hstep_le_a
    · intro x hx
      rcases List.mem_cons.1 hx with h | h
      · rw [step, h]; exact le_trans hle hstep_le_y
      · rw [step]; exact hall x h

/-! Claim theorems. -/

/-- C1: for every stored sequence and every query (with an unpoisoned
lock), query_metrics returns exactly the stored metrics whose timestamp
lies in the inclusive range and whose hostname equals the filter when one
is present, in original insertion order (the result is a sublist of the
store), and every matching stored metric appears in the result exactly as
often as it was stored (in particular, once if stored once). -/
theorem c1_query_metrics_filter_semantics {F : Type} [DecidableEq F]
    (s : Store F) (q : MetricQuery) (h : s.poisoned = false) :
    ∃ l : List (MetricPoint F),
      (query_metrics s q).1 = Except.ok l ∧
      (∀ m : MetricPoint F, m ∈ l ↔ m ∈ s.metrics ∧
        q.start_time ≤ m.timestamp ∧ m.timestamp ≤ q.end_time ∧
        ∀ f, q.hostname_filter = some f → m.hostname = f) ∧
      List.Sublist l s.metrics ∧
      (∀ m : MetricPoint F,
        (q.start_time ≤ m.timestamp ∧ m.timestamp ≤ q.end_time ∧
          ∀ f, q.hostname_filter = some f → m.hostname = f) →
        l.count m = s.metrics.count m) := by
  refine ⟨s.metrics.filter (metricMatches q), ?_, ?_, ?_, ?_⟩
  · simp [query_metrics, h]
  · intro m
    rw [List.mem_filter, metricMatches_iff]
  · exact List.filter_sublist s.metrics
  · intro m hm
    exact List.count_filter ((metricMatches_iff q m).2 hm)

/-- C1 witness: a concrete store of three metrics and a query keeping the
two in range on the matching hostname. -/
theorem c1_witness :
    ∃ l : List (MetricPoint ℚ),
      (query_metrics (Store.mk false
        [⟨5, "web-01", 1, 100, 10, []⟩, ⟨7, "web-02", 2, 200, 20, []⟩,
         ⟨50, "web-01", 3, 300, 30, []⟩])
        (MetricQuery.mk 0 10 (some "web-01"))).1 = Except.ok l ∧
      (∀ m : MetricPoint ℚ, m ∈ l ↔ m ∈
        [⟨5, "web-01", 1, 100, 10, []⟩, ⟨7, "web-02", 2, 200, 20, []⟩,
         ⟨50, "web-01", 3, 300, 30, []⟩] ∧
        (0 : Int) ≤ m.timestamp ∧ m.timestamp ≤ 10 ∧
        ∀ f, (some "web-01" = some f) → m.hostname = f) ∧
      List.Sublist l [⟨5, "web-01", 1, 100, 10, []⟩, ⟨7, "web-02", 2, 200, 20, []⟩,
         ⟨50, "web-01", 3, 300, 30, []⟩] ∧
      (∀ m : MetricPoint ℚ,
        ((0 : Int) ≤ m.timestamp ∧ m.timestamp ≤ 10 ∧
          ∀ f, (some "web-01" = some f) → m.hostname = f) →
        l.count m = List.count m [⟨5, "web-01", 1, 100, 10, []⟩,
          ⟨7, "web-02", 2, 200, 20, []⟩, ⟨50, "web-01", 3, 300, 30, []⟩]) :=
  c1_query_metrics_filter_semantics
    (Store.mk false
      [⟨5, "web-01", 1, 100, 10, []⟩, ⟨7, "web-02", 2, 200, 20, []⟩,
       ⟨50, "web-01", 3, 300, 30, []⟩])
    (MetricQuery.mk 0 10 (some "web-01")) rfl

/-- With an unpoisoned lock and no matching stored metric,
calculate_statistics takes the early-return branch: the zeroed record with
the wrapping i64 time range. -/
lemma calculate_statistics_of_no_match {F : Type} (ops : FloatOps F)
    (s : Store F) (q : MetricQuery) (h : s.poisoned = false)
    (hnone : ∀ m ∈ s.metrics, metricMatches q m = false) :
    (calculate_statistics ops s q).1 = Except.ok
      { count := 0
        avg_cpu_percent := ops.zero
        avg_memory_bytes := 0
        avg_disk_io_ops := ops.zero
        time_range_seconds := wsub64 q.end_time q.start_time } := by
  have hfil : s.metrics.filter (metricMatches q) = [] := by
    rw [List.filter_eq_nil_iff]
    intro a ha
    simp [hnone a ha]
  simp [calculate_statistics, query_metrics, h, hfil]

/-- C2 (amended): for every store state (unpoisoned lock) and every query
matching none of the stored metrics, calculate_statistics succeeds and
returns count = 0, zero averages (the float zeros being the literal 0.0 of
the abstract float operations) and time_range_seconds equal to the
wrapping i64 difference end_time - start_time; in particular there is no
division fault. -/
theorem c2_statistics_empty_result {F : Type} (ops : FloatOps F)
    (s : Store F) (q : MetricQuery) (h : s.poisoned = false)
    (hnone : ∀ m ∈ s.metrics, metricMatches q m = false) :
    (calculate_statistics ops s q).1 = Except.ok
      { count := 0
        avg_cpu_percent := ops.zero
        avg_memory_bytes := 0
        avg_disk_io_ops := ops.zero
        time_range_seconds := wsub64 q.end_time q.start_time } :=
  calculate_statistics_of_no_match ops s q h hnone

/-- C2 counterexample: on the empty store, a query spanning the whole i64
range (start_time = -2^63, end_time = 2^63 - 1) makes the code's i64
subtraction wrap: it reports time_range_seconds = -1, not the mathematical
difference 2^64 - 1 the claim asserts. -/
theorem c2_counterexample :
    ∃ st : MetricStatistics ℚ,
      (calculate_statistics ratOps c2CexStore c2CexQuery).1 = Except.ok st ∧
      st.count = 0 ∧
      st.time_range_seconds = -1 ∧
      st.time_range_seconds ≠ c2CexQuery.end_time - c2CexQuery.start_time := by
  refine ⟨_, rfl, rfl, by decide, by decide⟩

/-- C2 witness: a store holding one metric outside the query range. -/
theorem c2_witness :
    (∀ m ∈ (Store.mk false [(⟨50, "web-01", 1, 100, 10, []⟩ : MetricPoint ℚ)]).metrics,
      metricMatches (MetricQuery.mk 0 10 none) m = false) ∧
    (calculate_statistics ratOps
      (Store.mk false [(⟨50, "web-01", 1, 100, 10, []⟩ : MetricPoint ℚ)])
      (MetricQuery.mk 0 10 none)).1 = Except.ok
      { count := 0
        avg_cpu_percent := ratOps.zero
        avg_memory_bytes := 0
        avg_disk_io_ops := ratOps.zero
        time_range_seconds := wsub64 10 0 } :=
  ⟨by decide, c2_statistics_empty_result ratOps
    (Store.mk false [(⟨50, "web-01", 1, 100, 10, []⟩ : MetricPoint ℚ)])
    (MetricQuery.mk 0 10 none) rfl (by decide)⟩

/-- C4: store_metric on an unpoisoned store always succeeds, its only
effect being to append the metric at the end of the stored sequence (no
structurally valid metric is ever rejected); on a poisoned store it
returns an error and leaves the state unchanged. -/
theorem c4_store_metric_append {F : Type} (s : Store F) (m : MetricPoint F) :
    (s.poisoned = false →
      (store_metric s m).1 = Except.ok () ∧
      (store_metric s m).2.metrics = s.metrics ++ [m] ∧
      (store_metric s m).2.poisoned = false) ∧
    (s.poisoned = true →
      (∃ e, (store_metric s m).1 = Except.error e) ∧
      (store_metric s m).2 = s) := by
  constructor
  · intro h
    simp [store_metric, h]
  · intro h
    exact ⟨⟨"Lock poisoned", by simp [store_metric, h]⟩, by simp [store_metric, h]⟩

/-- C4 witness: appending one concrete metric to a one-element store, and
the error case on the corresponding poisoned store. -/
theorem c4_witness :
    ((store_metric (Store.mk false [(⟨5, "web-01", 1, 100, 10, []⟩ : MetricPoint ℚ)])
        ⟨7, "web-02", 2, 200, 20, []⟩).1 = Except.ok () ∧
      (store_metric (Store.mk false [(⟨5, "web-01", 1, 100, 10, []⟩ : MetricPoint ℚ)])
        ⟨7, "web-02", 2, 200, 20, []⟩).2.metrics =
        [(⟨5, "web-01", 1, 100, 10, []⟩ : MetricPoint ℚ)] ++ [⟨7, "web-02", 2, 200, 20, []⟩] ∧
      (store_metric (Store.mk false [(⟨5, "web-01", 1, 100, 10, []⟩ : MetricPoint ℚ)])
        ⟨7, "web-02", 2, 200, 20, []⟩).2.poisoned = false) ∧
    ((∃ e, (store_metric (Store.mk true [(⟨5, "web-01", 1, 100, 10, []⟩ : MetricPoint ℚ)])
        ⟨7, "web-02", 2, 200, 20, []⟩).1 = Except.error e) ∧
      (store_metric (Store.mk true [(⟨5, "web-01", 1, 100, 10, []⟩ : MetricPoint ℚ)])
        ⟨7, "web-02", 2, 200, 20, []⟩).2 =
        Store.mk true [(⟨5, "web-01", 1, 100, 10, []⟩ : MetricPoint ℚ)]) :=
  ⟨(c4_store_metric_append
      (Store.mk false [(⟨5, "web-01", 1, 100, 10, []⟩ : MetricPoint ℚ)])
      ⟨7, "web-02", 2, 200, 20, []⟩).1 rfl,
   (c4_store_metric_append
      (Store.mk true [(⟨5, "web-01", 1, 100, 10, []⟩ : MetricPoint ℚ)])
      ⟨7, "web-02", 2, 200, 20, []⟩).2 rfl⟩

/-- C6: with an unpoisoned lock, an inverted time range
(end_time < start_time) is never an error: query_metrics succeeds with the
empty result and calculate_statistics succeeds with count = 0. -/
theorem c6_inverted_range_empty {F : Type} (ops : FloatOps F)
    (s : Store F) (q : MetricQuery) (h : s.poisoned = false)
    (hinv : q.end_time < q.start_time) :
    (query_metrics s q).1 = Except.ok ([] : List (MetricPoint F)) ∧
    ∃ st, (calculate_statistics ops s q).1 = Except.ok st ∧ st.count = 0 := by
  have hnone : ∀ m ∈ s.metrics, metricMatches q m = false := by
    intro m _
    rcases Bool.eq_false_or_eq_true (metricMatches q m) with ht | hf
    · exfalso
      rcases (metricMatches_iff q m).1 ht with ⟨h1, h2, _⟩
      omega
    · exact hf
  have hfil : s.metrics.filter (metricMatches q) = [] := by
    rw [List.filter_eq_nil_iff]
    intro a ha
    simp [hnone a ha]
  refine ⟨by simp [query_metrics, h, hfil], ?_⟩
  exact ⟨_, calculate_statistics_of_no_match ops s q h hnone, rfl⟩

/-- C6 witness: an inverted range over a one-metric store. -/
theorem c6_witness :
    (query_metrics (Store.mk false [(⟨5, "web-01", 1, 100, 10, []⟩ : MetricPoint ℚ)])
      (MetricQuery.mk 10 0 none)).1 = Except.ok ([] : List (MetricPoint ℚ)) ∧
    ∃ st, (calculate_statistics ratOps
      (Store.mk false [(⟨5, "web-01", 1, 100, 10, []⟩ : MetricPoint ℚ)])
      (MetricQuery.mk 10 0 none)).1 = Except.ok st ∧ st.count = 0 :=
  c6_inverted_range_empty ratOps
    (Store.mk false [(⟨5, "web-01", 1, 100, 10, []⟩ : MetricPoint ℚ)])
    (MetricQuery.mk 10 0 none) rfl (by decide)

/-- C9: query_metrics and calculate_statistics never change the store
state, and store_metric either leaves the stored sequence unchanged
(poisoned lock) or appends the new metric at the end, so every previously
stored metric and its position are preserved by every operation. -/
theorem c9_operations_preserve_store {F : Type} (ops : FloatOps F)
    (s : Store F) (q : MetricQuery) (m : MetricPoint F) :
    (query_metrics s q).2 = s ∧
    (calculate_statistics ops s q).2 = s ∧
    ((store_metric s m).2.metrics = s.metrics ∨
      (store_metric s m).2.metrics = s.metrics ++ [m]) := by
  refine ⟨?_, ?_, ?_⟩
  · cases h : s.poisoned <;> simp [query_metrics, h]
  · unfold calculate_statistics
    cases h : s.poisoned
    · have hq : query_metrics s q =
          (Except.ok (s.metrics.filter (metricMatches q)), s) := by
        simp [query_metrics, h]
      rw [hq]
      split
      · rename_i e s1 heq
        injection heq with h1 h2
        exact absurd h1 (by simp)
      · rename_i ms s1 heq
        injection heq with h1 h2
        subst h2
        split <;> rfl
    · have hq : query_metrics s q = (Except.error "Lock poisoned", s) := by
        simp [query_metrics, h]
      rw [hq]
  · cases h : s.poisoned
    · exact Or.inr (by simp [store_metric, h])
    · exact Or.inl (by simp [store_metric, h])

/-- C3 (amended): with an unpoisoned lock and at least one matching
metric, calculate_statistics applies the same filter as query_metrics and
returns the count of the query result, the memory average as the u64 sum
(reduced modulo 2^64, the wrapping semantics of the code's u64 sum)
truncated-divided by the count, the cpu and disk averages as the
floating-point sums divided by the count cast to float, and
time_range_seconds equal to the wrapping i64 difference
end_time - start_time. -/
theorem c3_statistics_nonempty {F : Type} (ops : FloatOps F)
    (s : Store F) (q : MetricQuery) (h : s.poisoned = false)
    (hsome : ∃ m ∈ s.metrics, metricMatches q m = true) :
    ∃ (l : List (MetricPoint F)) (st : MetricStatistics F),
      (query_metrics s q).1 = Except.ok l ∧
      (calculate_statistics ops s q).1 = Except.ok st ∧
      st.count = l.length ∧
      st.avg_memory_bytes = (l.map (fun m => m.memory_bytes)).sum % u64Mod / l.length ∧
      st.avg_cpu_percent =
        ops.div (fsum ops (l.map (fun m => m.cpu_percent))) (ops.ofNat l.length) ∧
      st.avg_disk_io_ops =
        ops.div (fsum ops (l.map (fun m => ops.ofNat m.disk_io_ops))) (ops.ofNat l.length) ∧
      st.time_range_seconds = wsub64 q.end_time q.start_time := by
  have hq : query_metrics s q =
      (Except.ok (s.metrics.filter (metricMatches q)), s) := by
    simp [query_metrics, h]
  have hne : s.metrics.filter (metricMatches q) ≠ [] := by
    obtain ⟨m, hm, hmm⟩ := hsome
    exact List.ne_nil_of_mem (List.mem_filter.2 ⟨hm, hmm⟩)
  have hemp : (s.metrics.filter (metricMatches q)).isEmpty = false := by
    simpa [List.isEmpty_iff] using hne
  have hcalc : (calculate_statistics ops s q).1 = Except.ok
      { count := (s.metrics.filter (metricMatches q)).length
        avg_cpu_percent :=
          ops.div (fsum ops ((s.metrics.filter (metricMatches q)).map
            (fun m => m.cpu_percent)))
            (ops.ofNat (s.metrics.filter (metricMatches q)).length)
        avg_memory_bytes :=
          sum_u64 ((s.metrics.filter (metricMatches q)).map
            (fun m => m.memory_bytes)) / (s.metrics.filter (metricMatches q)).length
        avg_disk_io_ops :=
          ops.div (fsum ops ((s.metrics.filter (metricMatches q)).map
            (fun m => ops.ofNat m.disk_io_ops)))
            (ops.ofNat (s.metrics.filter (metricMatches q)).length)
        time_range_seconds := wsub64 q.end_time q.start_time } := by
    unfold calculate_statistics
    rw [hq]
    simp [hemp]
  refine ⟨s.metrics.filter (metricMatches q), _, by rw [hq], hcalc, rfl,
    ?_, rfl, rfl, rfl⟩
  exact congrArg (fun n => n / (s.metrics.filter (metricMatches q)).length)
    (sum_u64_eq ((s.metrics.filter (metricMatches q)).map (fun m => m.memory_bytes)))

/-- C3 counterexample: on a store of two metrics with memory_bytes = 2^63
each, the code's memory average is 0 (the u64 sum wraps to 0), while the
claimed formula - the sum of the memory values divided by the count -
gives 2^63. -/
theorem c3_counterexample :
    ∃ (l : List (MetricPoint ℚ)) (st : MetricStatistics ℚ),
      (query_metrics c3CexStore c3CexQuery).1 = Except.ok l ∧
      (calculate_statistics ratOps c3CexStore c3CexQuery).1 = Except.ok st ∧
      st.count = l.length ∧
      st.avg_memory_bytes ≠ spec_avg_memory_bytes l := by
  refine ⟨_, _, rfl, rfl, rfl, by decide⟩

/-- C3 witness: the amended statement evaluated on the concrete
two-metric store. -/
theorem c3_witness :
    ∃ (l : List (MetricPoint ℚ)) (st : MetricStatistics ℚ),
      (query_metrics c3CexStore c3CexQuery).1 = Except.ok l ∧
      (calculate_statistics ratOps c3CexStore c3CexQuery).1 = Except.ok st ∧
      st.count = l.length ∧
      st.avg_memory_bytes = (l.map (fun m => m.memory_bytes)).sum % u64Mod / l.length ∧
      st.avg_cpu_percent =
        ratOps.div (fsum ratOps (l.map (fun m => m.cpu_percent))) (ratOps.ofNat l.length) ∧
      st.avg_disk_io_ops =
        ratOps.div (fsum ratOps (l.map (fun m => ratOps.ofNat m.disk_io_ops)))
          (ratOps.ofNat l.length) ∧
      st.time_range_seconds = wsub64 c3CexQuery.end_time c3CexQuery.start_time :=
  c3_statistics_nonempty ratOps c3CexStore c3CexQuery rfl
    ⟨⟨1, "web-01", 0, 2 ^ 63, 0, []⟩, by decide, by decide⟩

/-- C5 counterexample: generate_test_data reads the wall clock
(SystemTime::now) into its base timestamp, so two invocations with the
same count but different generation times differ - already at count 1,
with the same random stream, the generated timestamps differ. -/
theorem c5_counterexample :
    generate_test_data zeroDraws zeroFdraws 0 1 ≠
      generate_test_data zeroDraws zeroFdraws 1 1 := by
  decide

/-- C5 (amended): generate_test_data is deterministic given the
generation time: for a fixed count and the fixed seed-42 random streams,
two invocations agree on every field except the timestamps, which shift
exactly by the difference of the two wall-clock base timestamps (equal
base timestamps therefore give identical output). -/
theorem c5_generate_deterministic_up_to_base {F : Type}
    (draws : Nat → Nat) (fdraws : Nat → F) (t1 t2 : Int) (n : Nat) :
    generate_test_data draws fdraws t2 n =
      (generate_test_data draws fdraws t1 n).map
        (fun m => { m with timestamp := m.timestamp + (t2 - t1) }) := by
  unfold generate_test_data
  rw [List.map_map]
  congr 1
  funext i
  simp only [Function.comp, generate_metric, MetricPoint.mk.injEq, and_true,
    true_and]
  omega

/-- C7: estimate_cpu_cycles is exactly the spec's formula - nanoseconds
truncated to u64, multiplied by the nominal 3 GHz rate with wrapping u64
multiplication, divided by 1e9 - and in the overflow-free range the
estimate is exactly 3 cycles per nanosecond. -/
theorem c7_estimate_cpu_cycles (n : Nat) :
    estimate_cpu_cycles n = spec_cycle_estimate n ∧
    (n * 3000000000 < u64Mod → estimate_cpu_cycles n = 3 * n) := by
  constructor
  · rfl
  · intro hlt
    have hn : n < u64Mod :=
      lt_of_le_of_lt (Nat.le_mul_of_pos_right n (by norm_num)) hlt
    unfold estimate_cpu_cycles wmul64
    rw [Nat.mod_eq_of_lt hn, Nat.mod_eq_of_lt hlt]
    have h3 : n * 3000000000 = 3 * n * 1000000000 := by ring
    rw [h3, Nat.mul_div_cancel (3 * n) (by norm_num)]

/-- C7 witness: a 7 ns duration, well inside the overflow-free range. -/
theorem c7_witness :
    estimate_cpu_cycles 7 = spec_cycle_estimate 7 ∧
    estimate_cpu_cycles 7 = 3 * 7 :=
  ⟨(c7_estimate_cpu_cycles 7).1,
   (c7_estimate_cpu_cycles 7).2 (by norm_num [u64Mod])⟩

/-- C8: the composite cost score is exactly the spec's weighted formula
(0.4 latency-ms + 0.2 memory-KB + 0.2 traffic-KB + 0.2 cycle-millions),
and the best-overall adapter picked by analyze_efficiency attains the
minimum of this score over the result table (lower is better). -/
theorem c8_cost_score_best_overall :
    (∀ m : BenchmarkMetrics, calculate_cost_score m = spec_cost_score m) ∧
    (∀ (results : List (String × BenchmarkMetrics))
        (best : String × BenchmarkMetrics),
      best_overall results = some best →
        best ∈ results ∧
        ∀ x ∈ results, calculate_cost_score best.2 ≤ calculate_cost_score x.2) := by
  constructor
  · intro m
    unfold calculate_cost_score spec_cost_score
    ring
  · intro results best hbest
    cases results with
    | nil => simp [best_overall, iter_min_by] at hbest
    | cons x xs =>
      unfold best_overall iter_min_by at hbest
      injection hbest with hb
      obtain ⟨hmem, hle, hall⟩ :=
        foldl_min_by_le (fun p => calculate_cost_score p.2) xs x
      subst hb
      constructor
      · rcases hmem with h | h
        · rw [h]
          exact List.mem_cons_self x xs
        · exact List.mem_cons_of_mem _ h
      · intro y hy
        rcases List.mem_cons.1 hy with h | h
        · rw [h]
          exact hle
        · exact hall y h

/-- C8 witness: over a concrete two-adapter table the best-overall pick
is the first adapter, and its score is minimal. -/
theorem c8_witness :
    best_overall demoResults = some ("rest", demoMetricsA) ∧
    ("rest", demoMetricsA) ∈ demoResults ∧
    ∀ x ∈ demoResults,
      calculate_cost_score ("rest", demoMetricsA).2 ≤ calculate_cost_score x.2 := by
  have hscore : ¬ (calculate_cost_score demoMetricsB < calculate_cost_score demoMetricsA) := by
    norm_num [calculate_cost_score, demoMetricsA, demoMetricsB, benchmark_operation,
      PayloadSizes.new, estimate_cpu_cycles, wadd64, wmul64, u64Mod]
  have h : best_overall demoResults = some ("rest", demoMetricsA) := by
    unfold best_overall iter_min_by demoResults
    simp [List.foldl, hscore]
  exact ⟨h, (c8_cost_score_best_overall.2 demoResults ("rest", demoMetricsA) h).1,
    (c8_cost_score_best_overall.2 demoResults ("rest", demoMetricsA) h).2⟩

/-- C10: PayloadSizes::new always sets total_bytes to the wrapping usize
sum of request and response bytes, and hence every BenchmarkMetrics bundle
assembled by benchmark_operation satisfies
total_bytes = (request_bytes + response_bytes) mod 2^64. -/
theorem c10_total_bytes_invariant (r resp lat mem : Nat) :
    (PayloadSizes.new r resp).total_bytes = (r + resp) % u64Mod ∧
    (benchmark_operation r lat mem resp).payload_size.total_bytes =
      ((benchmark_operation r lat mem resp).payload_size.request_bytes +
        (benchmark_operation r lat mem resp).payload_size.response_bytes) % u64Mod :=
  ⟨rfl, rfl⟩

end Protobench
